import Mathlib

/-!
Shallow embedding of the fastorm micro-ORM (src/orm/fastorm.py) together
with the record types declared by its example program (src/example.py).

Python values are modelled by `Value`, Python dictionaries by insertion
ordered association lists, and Python exceptions by `Except PyError`.
CPython guarantees used by the embedding (checked against CPython):
a class body's `__dict__` iterates in declaration order, preceded by
entries such as `__module__` and followed by a trailing `__doc__` entry
whose value is `None`; a `for` loop variable survives the loop.
-/

set_option autoImplicit false

namespace Fastorm

/-- Python runtime values that flow through the ORM (None, int, str). -/
inductive Value where
  | none
  | int (n : Int)
  | str (s : String)
  deriving DecidableEq, Repr

/-- Python exception classes raised by the code paths we embed. -/
inductive PyError where
  | valueError
  | attributeError
  | keyError
  | nameError
  deriving DecidableEq, Repr

instance {ε α : Type} [DecidableEq ε] [DecidableEq α] : DecidableEq (Except ε α) :=
  fun x y =>
    match x, y with
    | .ok a, .ok b => decidable_of_iff (a = b) (by simp)
    | .error a, .error b => decidable_of_iff (a = b) (by simp)
    | .ok _, .error _ => isFalse (fun hc => by cases hc)
    | .error _, .ok _ => isFalse (fun hc => by cases hc)

/-- Insertion-ordered dictionary lookup (Python `d[k]` / `k in d`). -/
def dictGet (d : List (String × Value)) (k : String) : Option Value :=
  match d with
  | [] => Option.none
  | (k₀, v₀) :: rest => if k₀ = k then some v₀ else dictGet rest k

/-- Python `d[k] = v`: updates in place, appends a fresh key at the end. -/
def dictSet (d : List (String × Value)) (k : String) (v : Value) :
    List (String × Value) :=
  match d with
  | [] => [(k, v)]
  | (k₀, v₀) :: rest =>
      if k₀ = k then (k₀, v) :: rest else (k₀, v₀) :: dictSet rest k v

/-- Python `set.add` on a set modelled as a duplicate-free list in
insertion order. -/
def setAdd (s : List String) (k : String) : List String :=
  if k ∈ s then s else s ++ [k]

/-- One declared class attribute of a record type: either a `Column`
with its `sql_type`, `primary_key`, `nullable` and `unique` flags, or a
`ForeignKey` holding the referenced record type and its `nullable` flag
(its `sql_type` property is always INTEGER). -/
inductive Field (ρ : Type) where
  | column (sqlType : String) (primaryKey : Bool) (nullable : Bool) (unique : Bool)
  | foreignKey (target : ρ) (nullable : Bool)
  deriving Repr

/-- A `Model` subclass: its `_table_name` (None on the base class) and
its declared `Column` / `ForeignKey` attributes in declaration order. -/
inductive RecordType where
  | mk (tableName : Option String) (fields : List (String × Field RecordType))

/-- The `_table_name` class attribute. -/
def RecordType.tableName : RecordType → Option String
  | .mk t _ => t

/-- The declared `Column` / `ForeignKey` attributes in declaration order. -/
def RecordType.fields : RecordType → List (String × Field RecordType)
  | .mk _ fs => fs

/-- `Model.get_primary_key`: first `Column` whose `primary_key` flag is
set, else the default name `id`. `ForeignKey` entries are skipped by the
`isinstance(field, Column)` test. -/
def findPK : List (String × Field RecordType) → String
  | [] => "id"
  | (n, .column _ pk _ _) :: rest => if pk then n else findPK rest
  | (_, .foreignKey _ _) :: rest => findPK rest

/-- `cls.get_primary_key()`. -/
def RecordType.getPrimaryKey (rt : RecordType) : String :=
  findPK rt.fields

/-- A value stored in a class `__dict__`: a declared field descriptor,
or any other class attribute (`__module__`, `_table_name`, the trailing
`__doc__` entry, ...), which `isinstance` tests reject. -/
inductive ClassAttr where
  | fld (f : Field RecordType)
  | other

/-- `cls.__dict__.items()` for a `Model` subclass, in CPython iteration
order: dunder prelude, the overridden `_table_name`, the declared fields
in declaration order, and the trailing `__doc__` entry (value `None`). -/
def classDict (rt : RecordType) : List (String × ClassAttr) :=
  ("__module__", ClassAttr.other) :: ("_table_name", ClassAttr.other) ::
    rt.fields.map (fun p => (p.1, ClassAttr.fld p.2)) ++ [("__doc__", ClassAttr.other)]

/-- `" NULL"` / `" NOT NULL"` fragment from a nullability flag. -/
def nullFrag (nullable : Bool) : String :=
  if nullable then " NULL" else " NOT NULL"

/-- The column-definition strings accumulated by the `create_table` loop
(`columns.append(...)` for both `Column` and `ForeignKey` entries). -/
def tableColumns (entries : List (String × ClassAttr)) : List String :=
  entries.filterMap fun p =>
    match p.2 with
    | .fld (.column st _ nb uq) =>
        some (p.1 ++ " " ++ st ++ nullFrag nb ++ (if uq then " UNIQUE" else ""))
    | .fld (.foreignKey _ nb) => some (p.1 ++ " INTEGER" ++ nullFrag nb)
    | .other => Option.none

/-- The `primary_keys` list accumulated by the `create_table` loop. -/
def tablePrimaryKeys (entries : List (String × ClassAttr)) : List String :=
  entries.filterMap fun p =>
    match p.2 with
    | .fld (.column _ pk _ _) => if pk then some p.1 else Option.none
    | _ => Option.none

/-- The `foreign_keys` list of `(name, referenced model)` pairs. -/
def tableForeignKeys (entries : List (String × ClassAttr)) :
    List (String × RecordType) :=
  entries.filterMap fun p =>
    match p.2 with
    | .fld (.foreignKey target _) => some (p.1, target)
    | _ => Option.none

/-- The `unique_constraints` list (unique and not primary key). -/
def tableUniques (entries : List (String × ClassAttr)) : List String :=
  entries.filterMap fun p =>
    match p.2 with
    | .fld (.column _ pk _ uq) => if uq && !pk then some p.1 else Option.none
    | _ => Option.none

/-- Reading `.nullable` off whatever object a class-dict entry holds:
succeeds on `Column` and `ForeignKey` descriptors, raises
`AttributeError` on anything else (for instance the `None` stored under
`__doc__`). -/
def attrNullable : ClassAttr → Except PyError Bool
  | .fld (.column _ _ nb _) => .ok nb
  | .fld (.foreignKey _ nb) => .ok nb
  | .other => .error .attributeError

/-- The loop variable `field` after `for name, field in
cls.__dict__.items()` has finished: the value of the last entry
(raises `NameError` when the dict is empty and the name was never bound). -/
def staleField (entries : List (String × ClassAttr)) : Except PyError ClassAttr :=
  match entries.getLast? with
  | some p => .ok p.2
  | Option.none => .error .nameError

/-- Rendering `model._table_name` inside an f-string (`None` prints as
the four characters None). -/
def showOptTable : Option String → String
  | some s => s
  | Option.none => "None"

/-- One `FOREIGN KEY(...)` clause of `create_table`. The ON DELETE
policy is read from the stale loop variable `field`, not from the
relation being emitted. -/
def fkClause (stale : Except PyError ClassAttr) (p : String × RecordType) :
    Except PyError String := do
  let a ← stale
  let nb ← attrNullable a
  pure (", FOREIGN KEY(" ++ p.1 ++ ") REFERENCES " ++ showOptTable p.2.tableName ++
    "(" ++ p.2.getPrimaryKey ++ ") ON DELETE " ++
    (if nb then "SET NULL" else "CASCADE"))

/-- `Model.create_table`: the DDL string it passes to `conn.execute`, or
the exception it raises. Python truthiness of `cls._table_name` makes
both `None` and the empty string raise `ValueError`. -/
def createTable (rt : RecordType) : Except PyError String := do
  let t ← match rt.tableName with
          | some t => if t = "" then Except.error PyError.valueError else pure t
          | Option.none => Except.error PyError.valueError
  let entries := classDict rt
  let columns := tableColumns entries
  let primaryKeys := tablePrimaryKeys entries
  let pkClause :=
    if primaryKeys.isEmpty then ""
    else ", PRIMARY KEY (" ++ String.intercalate ", " primaryKeys ++ ")"
  let fkClauses ← (tableForeignKeys entries).mapM (fkClause (staleField entries))
  let uniqueClauses := (tableUniques entries).map (fun col => ", UNIQUE(" ++ col ++ ")")
  pure ("CREATE TABLE IF NOT EXISTS " ++ t ++ " (" ++
    String.intercalate ", " columns ++ pkClause ++ String.join fkClauses ++
    String.join uniqueClauses ++ ")")

/-- The Department record type of src/example.py. -/
def departmentRT : RecordType :=
  .mk (some "departments")
    [("id", .column "INTEGER" true true false),
     ("name", .column "TEXT" false false true),
     ("budget", .column "REAL" false true false)]

/-- The Employee record type of src/example.py. -/
def employeeRT : RecordType :=
  .mk (some "employees")
    [("id", .column "INTEGER" true true false),
     ("name", .column "TEXT" false false false),
     ("email", .column "TEXT" false true true),
     ("salary", .column "REAL" false true false),
     ("department_id", .foreignKey departmentRT false)]

/-- The Project record type of src/example.py. -/
def projectRT : RecordType :=
  .mk (some "projects")
    [("id", .column "INTEGER" true true false),
     ("name", .column "TEXT" false false false),
     ("deadline", .column "TEXT" false true false)]

/-- The EmployeeProject record type of src/example.py: two non-nullable
foreign keys followed by a nullable plain column. -/
def employeeProjectRT : RecordType :=
  .mk (some "employee_projects")
    [("id", .column "INTEGER" true true false),
     ("employee_id", .foreignKey employeeRT false),
     ("project_id", .foreignKey projectRT false),
     ("hours", .column "INTEGER" false true false)]

example : createTable departmentRT =
    .ok ("CREATE TABLE IF NOT EXISTS departments (id INTEGER NULL, " ++
      "name TEXT NOT NULL UNIQUE, budget REAL NULL, PRIMARY KEY (id), UNIQUE(name))") := by
  rfl

example : createTable employeeRT = .error .attributeError := by rfl

example : createTable employeeProjectRT = .error .attributeError := by rfl

example : departmentRT.getPrimaryKey = "id" := by rfl

/-! ## Record instances: attribute access, save, delete -/

/-- In-memory state of one `Model` instance: the `_data` dict, the
`_modified` dirty set (a Python set, modelled as a duplicate-free list
in insertion order; the claims only depend on its membership), and the
`_relations` dict. -/
structure Instance where
  data : List (String × Value)
  modified : List String
  relations : List (String × Value)
  deriving DecidableEq, Repr

/-- `Model(**kwargs)`: `_data` is the keyword dict, `_modified` and
`_relations` start empty. -/
def initInstance (kwargs : List (String × Value)) : Instance :=
  ⟨kwargs, [], []⟩

/-- The declared class attribute (Column / ForeignKey descriptor object)
stored under `name` in the class body, if any. -/
def classFieldLookup (rt : RecordType) (name : String) :
    Option (Field RecordType) :=
  (rt.fields.find? (fun p => p.1 = name)).map Prod.snd

/-- Outcome of a Python attribute read on a `Model` instance. -/
inductive ReadResult where
  | value (v : Value)
  | descriptor (f : Field RecordType)
  | attrError

/-- Python attribute read `instance.name` for a non-underscore `name`
(underscore names hit the `_data`/`_modified`/`_relations` slots in the
instance `__dict__`, and inherited `Model` methods are outside the data
model). `object.__getattribute__` finds the class attribute first:
`Column` / `ForeignKey` objects define no `__get__`, the instance
`__dict__` never holds a non-underscore key (writes are redirected into
`_data` by `__setattr__`), so a declared name returns the descriptor
object itself and `__getattr__` (fastorm.py lines 30-35) runs only for
undeclared names: `_data` value, else `_relations` value, else
`AttributeError`. -/
def readAttr (rt : RecordType) (inst : Instance) (name : String) : ReadResult :=
  match classFieldLookup rt name with
  | some f => .descriptor f
  | Option.none =>
      match dictGet inst.data name with
      | some v => .value v
      | Option.none =>
          match dictGet inst.relations name with
          | some v => .value v
          | Option.none => .attrError

/-- `Model.__setattr__` for a non-underscore name: a `_relations` key is
updated in place, any other name goes into `_data` and is marked dirty. -/
def writeAttr (inst : Instance) (name : String) (v : Value) : Instance :=
  if (inst.relations.find? (fun p => p.1 = name)).isSome then
    { inst with relations := dictSet inst.relations name v }
  else
    { inst with data := dictSet inst.data name v,
                modified := setAdd inst.modified name }

/-- Truthiness check on `cls._table_name` shared by `save` and `delete`
(`None` and the empty string raise `ValueError`). -/
def tableNameOrErr (rt : RecordType) : Except PyError String :=
  match rt.tableName with
  | some t => if t = "" then .error .valueError else .ok t
  | Option.none => .error .valueError

/-- `self._data.get(pk)` filtered by the `is not None` test of `save`
and `delete`: an absent key and a stored Python `None` both count as
having no primary-key value. -/
def Instance.pkValue (rt : RecordType) (inst : Instance) : Option Value :=
  match dictGet inst.data rt.getPrimaryKey with
  | some Value.none => Option.none
  | some v => some v
  | Option.none => Option.none

/-- `[self._data[col] for col in cols]`; a missing key raises `KeyError`. -/
def getAll (d : List (String × Value)) (cols : List String) :
    Except PyError (List Value) :=
  cols.mapM fun c =>
    match dictGet d c with
    | some v => Except.ok v
    | Option.none => Except.error PyError.keyError

/-- The parameterized DML statement `save` hands to `cursor.execute`,
kept in structured form. -/
inductive SaveStmt where
  | updateStmt (table : String) (setCols : List String) (pk : String)
      (params : List Value)
  | insertStmt (table : String) (cols : List String) (params : List Value)
  deriving DecidableEq, Repr

/-- The SQL text of a `SaveStmt`, exactly as the f-strings of `save`
render it. -/
def SaveStmt.sql : SaveStmt → String
  | .updateStmt t cols pk _ =>
      "UPDATE " ++ t ++ " SET " ++
        String.intercalate ", " (cols.map (fun c => c ++ " = ?")) ++
        " WHERE " ++ pk ++ " = ?"
  | .insertStmt t cols _ =>
      "INSERT INTO " ++ t ++ " (" ++ String.intercalate ", " cols ++
        ") VALUES (" ++ String.intercalate ", " (cols.map (fun _ => "?")) ++ ")"

/-- `Model.save`. `lastrowid` is the row id the storage engine assigns
to an INSERT (external input). Returns the executed statement and the
instance state after the call: UPDATE over the dirty columns when the
primary-key attribute holds a value, INSERT over all populated
attributes (then `_data[pk] = cursor.lastrowid` since `pk` is never the
empty string in Python truthiness terms) otherwise; both branches end
with `self._modified.clear()`. -/
def save (rt : RecordType) (lastrowid : Int) (inst : Instance) :
    Except PyError (SaveStmt × Instance) := do
  let t ← tableNameOrErr rt
  let pk := rt.getPrimaryKey
  match inst.pkValue rt with
  | some pkv => do
      let vals ← getAll inst.data inst.modified
      pure (.updateStmt t inst.modified pk (vals ++ [pkv]),
        { inst with modified := [] })
  | Option.none =>
      let cols := inst.data.map Prod.fst
      let vals := inst.data.map Prod.snd
      let data₁ := if pk = "" then inst.data
                   else dictSet inst.data pk (Value.int lastrowid)
      pure (.insertStmt t cols vals,
        { data := data₁, modified := [], relations := inst.relations })

/-- `Model.delete`: raises `ValueError` without a table name or without
a primary-key value, otherwise executes `DELETE FROM t WHERE pk = ?`.
The method body never assigns to `self`, so the returned post-state is
the instance as it was. -/
def deleteRec (rt : RecordType) (inst : Instance) :
    Except PyError (String × List Value × Instance) := do
  let t ← tableNameOrErr rt
  let pk := rt.getPrimaryKey
  match inst.pkValue rt with
  | Option.none => Except.error PyError.valueError
  | some pkv =>
      pure ("DELETE FROM " ++ t ++ " WHERE " ++ pk ++ " = ?", [pkv], inst)

example :
    readAttr departmentRT (writeAttr (initInstance []) "name" (.str "IT")) "name" =
      .descriptor (.column "TEXT" false false true) := by rfl

example :
    save departmentRT 1 (initInstance [("name", .str "IT"), ("budget", .int 100000)]) =
      .ok (.insertStmt "departments" ["name", "budget"] [.str "IT", .int 100000],
        ⟨[("name", .str "IT"), ("budget", .int 100000), ("id", .int 1)], [], []⟩) := by
  rfl

/-! ## Connection lifecycle (`get_connection` / `close_connection`)

Both are classmethods: `cls` is the `Model` subclass they are invoked
on. `hasattr(cls, '_conn')` searches the method resolution order (the
subclass, then `Model`), while the assignment `cls._conn = ...` and
`delattr(cls, '_conn')` act on the invoked class's own dict. -/

/-- A class in the `Model` hierarchy: the base class itself or a
subclass identified by name. -/
inductive PyClass where
  | model
  | sub (name : String)
  deriving DecidableEq, Repr

/-- Which classes currently hold a `_conn` class attribute (and which
sqlite connection each holds), plus the ids of connections opened so
far and the set of those still open. -/
structure ConnState where
  conns : List (PyClass × Nat)
  nextConn : Nat
  openConns : List Nat
  deriving DecidableEq, Repr

/-- The state of a fresh process: no `_conn` anywhere. -/
def ConnState.init : ConnState := ⟨[], 0, []⟩

/-- Lookup of a class's own `_conn` entry. -/
def ownConn (l : List (PyClass × Nat)) (c : PyClass) : Option Nat :=
  (l.find? (fun p => p.1 = c)).map Prod.snd

/-- `cls._conn` resolved along the method resolution order: the class's
own dict, then (for a subclass) `Model`. -/
def mroConn (st : ConnState) (c : PyClass) : Option Nat :=
  match ownConn st.conns c with
  | some i => some i
  | Option.none =>
      match c with
      | .model => Option.none
      | .sub _ => ownConn st.conns .model

/-- `cls._conn = value`: sets the attribute on the invoked class's own
dict. -/
def setOwnConn (l : List (PyClass × Nat)) (c : PyClass) (i : Nat) :
    List (PyClass × Nat) :=
  match l with
  | [] => [(c, i)]
  | (c₀, i₀) :: rest =>
      if c₀ = c then (c₀, i) :: rest else (c₀, i₀) :: setOwnConn rest c i

/-- `Model.get_connection` invoked on class `c`: if `hasattr(cls,
'_conn')` fails, a new sqlite connection is opened and stored on `cls`;
the connection found or created is returned. -/
def getConnection (c : PyClass) (st : ConnState) : Nat × ConnState :=
  match mroConn st c with
  | some i => (i, st)
  | Option.none =>
      (st.nextConn,
        ⟨setOwnConn st.conns c st.nextConn, st.nextConn + 1,
          st.openConns ++ [st.nextConn]⟩)

/-- `Model.close_connection` invoked on class `c`: when `hasattr(cls,
'_conn')` holds, `cls._conn.close()` closes the connection found along
the MRO and `delattr(cls, '_conn')` then removes the attribute from the
class's own dict — raising `AttributeError` when the attribute was
inherited rather than owned. Without the attribute the call is a no-op. -/
def closeConnection (c : PyClass) (st : ConnState) : Except PyError ConnState :=
  match mroConn st c with
  | Option.none => .ok st
  | some i =>
      let st₁ : ConnState := ⟨st.conns, st.nextConn, st.openConns.erase i⟩
      match ownConn st.conns c with
      | some _ =>
          .ok ⟨st₁.conns.filter (fun p => !(p.1 = c : Bool)), st₁.nextConn,
            st₁.openConns⟩
      | Option.none => .error .attributeError

/-! ## Query builder -/

/-- `QueryBuilder` state. The Python object holds `model_class`; the
rendering methods read only `model_class._table_name`, stored here as
`table` (an f-string renders `None` literally). Field names follow the
Python attributes. -/
structure QueryBuilder where
  table : Option String
  _select : String
  _where : List String
  _params : List Value
  _joins : List String
  _limit : Option Int
  _offset : Option Int
  _order_by : Option String
  _group_by : Option String
  _having : Option String
  deriving DecidableEq, Repr

/-- `QueryBuilder(model_class)` / `Model.query()`. -/
def initQB (rt : RecordType) : QueryBuilder :=
  ⟨rt.tableName, "*", [], [], [], Option.none, Option.none, Option.none,
    Option.none, Option.none⟩

/-- `select(*columns)`: empty argument list resets to `*`. -/
def select (b : QueryBuilder) (cols : List String) : QueryBuilder :=
  { b with _select := if cols.isEmpty then "*" else String.intercalate ", " cols }

/-- `where(condition, *params)` (named `whereC` because `where` is a
Lean keyword): appends one predicate fragment and its parameters. -/
def whereC (b : QueryBuilder) (cond : String) (ps : List Value) : QueryBuilder :=
  { b with _where := b._where ++ [cond], _params := b._params ++ ps }

/-- `join(table, on, join_type)`. -/
def join (b : QueryBuilder) (tbl onC ty : String) : QueryBuilder :=
  { b with _joins := b._joins ++ [ty ++ " JOIN " ++ tbl ++ " ON " ++ onC] }

/-- `left_join(table, on)`. -/
def left_join (b : QueryBuilder) (tbl onC : String) : QueryBuilder :=
  join b tbl onC "LEFT"

/-- `right_join(table, on)`. -/
def right_join (b : QueryBuilder) (tbl onC : String) : QueryBuilder :=
  join b tbl onC "RIGHT"

/-- `limit(n)`: last call wins. -/
def limit (b : QueryBuilder) (n : Int) : QueryBuilder :=
  { b with _limit := some n }

/-- `offset(n)`: last call wins. -/
def offset (b : QueryBuilder) (n : Int) : QueryBuilder :=
  { b with _offset := some n }

/-- `order_by(column, direction)`: stores one string, last call wins. -/
def order_by (b : QueryBuilder) (col dir : String) : QueryBuilder :=
  { b with _order_by := some (col ++ " " ++ dir) }

/-- `group_by(column)`: last call wins. -/
def group_by (b : QueryBuilder) (col : String) : QueryBuilder :=
  { b with _group_by := some col }

/-- `having(condition, *params)`: overwrites the condition but extends
the shared `_params` list. -/
def having (b : QueryBuilder) (cond : String) (ps : List Value) : QueryBuilder :=
  { b with _having := some cond, _params := b._params ++ ps }

/-- Python truthiness of an optional string clause (`if self._group_by:`
rejects both `None` and the empty string). -/
def truthyS : Option String → Bool
  | some s => !(s = "" : Bool)
  | Option.none => false

/-- `QueryBuilder._build_query`: the parameterized SELECT statement,
appending clause fragments in the fixed source order. -/
def buildQuery (b : QueryBuilder) : String × List Value :=
  let sql := "SELECT " ++ b._select ++ " FROM " ++ showOptTable b.table
  let sql := if b._joins.isEmpty then sql
             else sql ++ " " ++ String.intercalate " " b._joins
  let sql := if b._where.isEmpty then sql
             else sql ++ " WHERE " ++ String.intercalate " AND " b._where
  let sql := if truthyS b._group_by then sql ++ " GROUP BY " ++ b._group_by.getD ""
             else sql
  let sql := if truthyS b._having then sql ++ " HAVING " ++ b._having.getD ""
             else sql
  let sql := if truthyS b._order_by then sql ++ " ORDER BY " ++ b._order_by.getD ""
             else sql
  let sql := match b._limit with
             | some n => sql ++ " LIMIT " ++ toString n
             | Option.none => sql
  let sql := match b._offset with
             | some n => sql ++ " OFFSET " ++ toString n
             | Option.none => sql
  (sql, b._params)

/-- `first()`: forces `_limit = 1`, then renders and executes; the
statement it runs. -/
def firstQuery (b : QueryBuilder) : String × List Value :=
  buildQuery { b with _limit := some 1 }

/-- `count()`: its own rendering — `SELECT COUNT(*) FROM t` plus the
predicate fragments only, binding the first `len(self._where)` of the
accumulated parameters. -/
def count (b : QueryBuilder) : String × List Value :=
  let sql := "SELECT COUNT(*) FROM " ++ showOptTable b.table
  if b._where.isEmpty then (sql, [])
  else (sql ++ " WHERE " ++ String.intercalate " AND " b._where,
    b._params.take b._where.length)

/-! ## Relation resolvers -/

/-- ASCII lowering of one character (`str.lower()` on the ASCII table
names this repository uses). -/
def lowerChar (c : Char) : Char :=
  if 65 ≤ c.toNat ∧ c.toNat ≤ 90 then Char.ofNat (c.toNat + 32) else c

/-- `s.lower()` for the ASCII strings of this repository. -/
def pyLower (s : String) : String :=
  ⟨s.data.map lowerChar⟩

/-- The default foreign-key name both resolvers compute when none is
given: `<table name>.lower() + "_id"`; reading `.lower()` off a `None`
table name raises `AttributeError`. -/
def defaultFkName (tableName : Option String) : Except PyError String :=
  match tableName with
  | some tn => .ok (pyLower tn ++ "_id")
  | Option.none => .error .attributeError

/-- `Model.belongs_to(model_class, foreign_key=None)`: default key name
is `model_class._table_name.lower() + "_id"` (reading `.lower()` off
`None` raises `AttributeError`); returns `None` when the key is absent
from `_data`, otherwise the statement `first()` runs on
`model_class.query().where(pk = ?, value)`. -/
def belongs_to (inst : Instance) (target : RecordType) (fk : Option String) :
    Except PyError (Option (String × List Value)) := do
  let fkName ← match fk with
    | some f => pure f
    | Option.none => defaultFkName target.tableName
  match dictGet inst.data fkName with
  | Option.none => pure Option.none
  | some v =>
      pure (some (firstQuery
        (whereC (initQB target) (target.getPrimaryKey ++ " = ?") [v])))

/-- `Model.has_many(model_class, foreign_key=None)`: default key name is
`self._table_name.lower() + "_id"`; `self._data[self.get_primary_key()]`
raises `KeyError` when the primary key is unpopulated; otherwise the
statement `all()` runs on `model_class.query().where(fk = ?, pk value)`. -/
def has_many (rt : RecordType) (inst : Instance) (target : RecordType)
    (fk : Option String) : Except PyError (String × List Value) := do
  let fkName ← match fk with
    | some f => pure f
    | Option.none => defaultFkName rt.tableName
  let pkv ← match dictGet inst.data rt.getPrimaryKey with
    | some v => pure v
    | Option.none => Except.error PyError.keyError
  pure (buildQuery (whereC (initQB target) (fkName ++ " = ?") [pkv]))

/-- Modelled from the spec: the storage engine is an external
collaborator (spec sections 1 and 6); evaluating a single-equality
`WHERE col = ?` against its stored rows keeps exactly the rows whose
`col` equals the bound value. Used to state what the `has_many` query
returns. -/
def rowsMatchingEq (rows : List (List (String × Value))) (col : String)
    (v : Value) : List (List (String × Value)) :=
  rows.filter (fun r => dictGet r col == some v)

example :
    has_many departmentRT (initInstance [("id", .int 7)]) employeeRT Option.none =
      .ok ("SELECT * FROM employees WHERE departments_id = ?", [.int 7]) := by
  decide

example :
    belongs_to (initInstance [("department_id", .int 3)]) departmentRT Option.none =
      .ok Option.none := by
  decide

/-- A record type with a table name but zero declared columns. -/
def emptyTableRT : RecordType := .mk (some "t") []

/-! ## Claim theorems -/

/-- C1: the claim says each `FOREIGN KEY` clause of `create_table`
chooses ON DELETE CASCADE / SET NULL from that relation's own
`nullable` flag. The code instead reads `field.nullable` from the loop
variable left over from iterating `cls.__dict__.items()`; after that
loop `field` holds the value of the trailing `__doc__` entry (`None`),
so `create_table` raises `AttributeError` for every record type that
declares a foreign key — Employee (one relation, `nullable=false`,
which the claim says compiles to ON DELETE CASCADE) and EmployeeProject
(two such relations) both crash instead. -/
theorem C1_on_delete_policy_reads_stale_loop_variable :
    createTable employeeRT = .error PyError.attributeError ∧
    createTable employeeProjectRT = .error PyError.attributeError :=
  ⟨rfl, rfl⟩

/-- C2: the claim says reading a declared attribute returns the current
in-memory value and only undeclared names raise. On the code, a
declared attribute name is a class attribute holding the `Column`
descriptor object; Python attribute lookup returns that object before
`__getattr__` is ever consulted, so `Department(name="IT").name` yields
the descriptor and never the written value `"IT"` (example.py itself
prints such attributes expecting values). Moreover an undeclared name
that happens to sit in `_data` (for instance a joined projection alias)
returns a value instead of raising. -/
theorem C2_declared_attribute_read_returns_descriptor :
    readAttr departmentRT (writeAttr (initInstance []) "name" (.str "IT")) "name" =
      .descriptor (.column "TEXT" false false true) ∧
    (∀ v : Value,
      readAttr departmentRT (writeAttr (initInstance []) "name" (.str "IT")) "name" ≠
        .value v) ∧
    readAttr departmentRT (initInstance [("department", .str "IT")]) "department" =
      .value (.str "IT") := by
  refine ⟨rfl, ?_, rfl⟩
  intro v h
  rw [show readAttr departmentRT (writeAttr (initInstance []) "name" (.str "IT")) "name" =
      ReadResult.descriptor (.column "TEXT" false false true) from rfl] at h
  exact ReadResult.noConfusion h

/-- C9: the claim says one lazily created storage connection is shared
by all record types. `get_connection` stores `cls._conn` on the invoked
subclass, so after `Department.get_connection()` a subsequent
`Employee.get_connection()` finds no `_conn` along its own MRO and
opens a second connection while the first is still open; the
`Model.close_connection()` call that example.py ends with then finds no
`_conn` on `Model` and closes neither. -/
theorem C9_each_subclass_opens_its_own_connection :
    (getConnection (.sub "employees")
        (getConnection (.sub "departments") ConnState.init).2).2.openConns.length = 2 ∧
    (getConnection (.sub "employees")
        (getConnection (.sub "departments") ConnState.init).2).1 ≠
      (getConnection (.sub "departments") ConnState.init).1 ∧
    closeConnection .model
        (getConnection (.sub "employees")
          (getConnection (.sub "departments") ConnState.init).2).2 =
      .ok (getConnection (.sub "employees")
          (getConnection (.sub "departments") ConnState.init).2).2 := by
  decide

/-- C6 counterexample: the claim says table creation fails exactly when
the table name is missing or zero columns are declared. A record type
with a table name and zero columns does not fail — it produces the
(engine-invalid) statement with an empty column list — and Employee,
which has a table name and five columns, fails with `AttributeError`
instead of producing a statement. -/
theorem C6_counterexample_zero_columns_accepted :
    createTable emptyTableRT = .ok "CREATE TABLE IF NOT EXISTS t ()" ∧
    createTable employeeRT ≠ .error PyError.valueError ∧
    (∀ s : String, createTable employeeRT ≠ .ok s) := by
  refine ⟨rfl, ?_, ?_⟩
  · intro h
    rw [show createTable employeeRT = .error PyError.attributeError from rfl] at h
    simp at h
  · intro s h
    rw [show createTable employeeRT = .error PyError.attributeError from rfl] at h
    simp at h

/-- Unfolding of `belongs_to` with the default (convention-resolved)
foreign-key name, for a target with a table name. -/
lemma belongs_to_default_eq (inst : Instance) (tn : String) (target : RecordType)
    (htn : target.tableName = some tn) :
    belongs_to inst target Option.none =
      match dictGet inst.data (pyLower tn ++ "_id") with
      | Option.none => .ok Option.none
      | some v =>
          .ok (some (firstQuery
            (whereC (initQB target) (target.getPrimaryKey ++ " = ?") [v]))) := by
  simp only [belongs_to, defaultFkName, htn, Bind.bind, Except.bind, pure, Except.pure]

/-- Unfolding of `has_many` with the default (convention-resolved)
foreign-key name, for a source with a table name. -/
lemma has_many_default_eq (rt : RecordType) (inst : Instance) (target : RecordType)
    (sn : String) (hsn : rt.tableName = some sn) :
    has_many rt inst target Option.none =
      match dictGet inst.data rt.getPrimaryKey with
      | some pkv =>
          .ok (buildQuery (whereC (initQB target) (pyLower sn ++ "_id" ++ " = ?") [pkv]))
      | Option.none => .error .keyError := by
  simp only [has_many, defaultFkName, hsn, Bind.bind, Except.bind, pure, Except.pure]

/-- C3 counterexample: the claim says the default foreign-key name is
`<table singular>_id`. Table names in this repository are plural
(`departments`, `employees`); the code lowercases the table name
without singularizing, so the convention is `departments_id`, not the
singular `department_id` — and on an Employee row, whose actual column
is `department_id`, `belongs_to(Department)` misses the key entirely
and returns `None` instead of querying. -/
theorem C3_counterexample_no_singularization :
    defaultFkName (some "departments") = .ok "departments_id" ∧
    "departments_id" ≠ "department_id" ∧
    has_many departmentRT (initInstance [("id", .int 7)]) employeeRT Option.none =
      .ok ("SELECT * FROM employees WHERE departments_id = ?", [.int 7]) ∧
    belongs_to (initInstance [("department_id", .int 3)]) departmentRT Option.none =
      .ok Option.none := by
  refine ⟨by decide, by decide, by decide, by decide⟩

/-- C3 amended: when no foreign-key name is given, `belongs_to`
resolves it as `<target table name, lowercased>_id` and `has_many` as
`<this table name, lowercased>_id` — the full table name, with no
singularization. `belongs_to` returns none when that attribute is
absent from the instance values, and otherwise runs a LIMIT 1 query for
the target row whose primary key equals the stored value; `has_many`
runs a query for all target rows whose foreign-key column equals this
instance's primary-key value, which under equality-filter semantics for
the engine returns exactly the matching rows and the empty sequence
when none match. Stated over the repository's Department/Employee
types with arbitrary instance data. -/
theorem C3_amended_lowercased_table_name_convention
    (tn : String) (iAbs iPres iHm : Instance) (v pkv : Value)
    (rows rowsNone : List (List (String × Value))) (r : List (String × Value))
    (hAbs : dictGet iAbs.data "departments_id" = Option.none)
    (hPres : dictGet iPres.data "departments_id" = some v)
    (hPk : dictGet iHm.data "id" = some pkv)
    (hNone : ∀ q ∈ rowsNone, ¬ dictGet q "departments_id" = some pkv) :
    defaultFkName (some tn) = .ok (pyLower tn ++ "_id") ∧
    belongs_to iAbs departmentRT Option.none = .ok Option.none ∧
    belongs_to iPres departmentRT Option.none =
      .ok (some ("SELECT * FROM departments WHERE id = ? LIMIT 1", [v])) ∧
    has_many departmentRT iHm employeeRT Option.none =
      .ok ("SELECT * FROM employees WHERE departments_id = ?", [pkv]) ∧
    (r ∈ rowsMatchingEq rows "departments_id" pkv ↔
      r ∈ rows ∧ dictGet r "departments_id" = some pkv) ∧
    rowsMatchingEq rowsNone "departments_id" pkv = [] := by
  have hkey : pyLower "departments" ++ "_id" = "departments_id" := by decide
  refine ⟨rfl, ?_, ?_, ?_, ?_, ?_⟩
  · rw [belongs_to_default_eq iAbs "departments" departmentRT rfl, hkey, hAbs]
  · rw [belongs_to_default_eq iPres "departments" departmentRT rfl, hkey, hPres]
    rfl
  · rw [has_many_default_eq departmentRT iHm employeeRT "departments" rfl]
    have hpk : departmentRT.getPrimaryKey = "id" := rfl
    rw [hpk, hPk, hkey]
    rfl
  · simp [rowsMatchingEq, List.mem_filter]
  · simp only [rowsMatchingEq, List.filter_eq_nil_iff, beq_iff_eq]
    exact fun q hq => hNone q hq

/-- C3 amended, witnessed at concrete inputs. -/
theorem C3_amended_lowercased_table_name_convention_witness :
    defaultFkName (some "departments") = .ok (pyLower "departments" ++ "_id") ∧
    belongs_to (initInstance []) departmentRT Option.none = .ok Option.none ∧
    belongs_to (initInstance [("departments_id", .int 5)]) departmentRT Option.none =
      .ok (some ("SELECT * FROM departments WHERE id = ? LIMIT 1", [.int 5])) ∧
    has_many departmentRT (initInstance [("id", .int 7)]) employeeRT Option.none =
      .ok ("SELECT * FROM employees WHERE departments_id = ?", [.int 7]) ∧
    ([("departments_id", Value.int 7), ("name", Value.str "x")] ∈
        rowsMatchingEq [[("departments_id", Value.int 7), ("name", Value.str "x")],
          [("departments_id", Value.int 8)]] "departments_id" (Value.int 7) ↔
      [("departments_id", Value.int 7), ("name", Value.str "x")] ∈
          [[("departments_id", Value.int 7), ("name", Value.str "x")],
            [("departments_id", Value.int 8)]] ∧
        dictGet [("departments_id", Value.int 7), ("name", Value.str "x")]
            "departments_id" =
          some (Value.int 7)) ∧
    rowsMatchingEq [[("departments_id", Value.int 8)]] "departments_id"
        (Value.int 7) = [] :=
  C3_amended_lowercased_table_name_convention "departments" (initInstance [])
    (initInstance [("departments_id", Value.int 5)])
    (initInstance [("id", Value.int 7)])
    (Value.int 5) (Value.int 7)
    [[("departments_id", Value.int 7), ("name", Value.str "x")],
      [("departments_id", Value.int 8)]]
    [[("departments_id", Value.int 8)]]
    [("departments_id", Value.int 7), ("name", Value.str "x")]
    (by decide) (by decide) (by decide) (by decide)

/-- The class dict of every record type ends with its `__doc__` entry. -/
lemma classDict_getLast (rt : RecordType) :
    (classDict rt).getLast? = some ("__doc__", ClassAttr.other) := by
  have h : classDict rt =
      (("__module__", ClassAttr.other) :: ("_table_name", ClassAttr.other) ::
        rt.fields.map (fun p => (p.1, ClassAttr.fld p.2))) ++
        [("__doc__", ClassAttr.other)] := rfl
  rw [h, List.getLast?_concat]

/-- Hence the stale loop variable always holds a non-descriptor value. -/
lemma staleField_classDict (rt : RecordType) :
    staleField (classDict rt) = .ok ClassAttr.other := by
  unfold staleField
  rw [classDict_getLast]

/-- Emitting foreign-key clauses from a non-descriptor stale `field`
fails on the first relation. -/
lemma mapM_fkClause_error (l : List (String × RecordType)) (hl : l ≠ []) :
    l.mapM (fkClause (.ok ClassAttr.other)) = .error PyError.attributeError := by
  cases l with
  | nil => cases hl rfl
  | cons a t =>
      rw [List.mapM_cons,
        show fkClause (Except.ok ClassAttr.other) a = Except.error PyError.attributeError
          from rfl]
      rfl

/-- `create_table` on a record type with a truthy table name, written
as the foreign-key emission bound into the final DDL assembly. -/
lemma createTable_named_eq (rt : RecordType) (t : String)
    (h : rt.tableName = some t) (ht : ¬ t = "") :
    createTable rt =
      Except.bind
        ((tableForeignKeys (classDict rt)).mapM (fkClause (staleField (classDict rt))))
        (fun fkClauses =>
          Except.ok ("CREATE TABLE IF NOT EXISTS " ++ t ++ " (" ++
            String.intercalate ", " (tableColumns (classDict rt)) ++
            (if (tablePrimaryKeys (classDict rt)).isEmpty then ""
             else ", PRIMARY KEY (" ++
               String.intercalate ", " (tablePrimaryKeys (classDict rt)) ++ ")") ++
            String.join fkClauses ++
            String.join ((tableUniques (classDict rt)).map
              (fun col => ", UNIQUE(" ++ col ++ ")")) ++ ")")) := by
  simp only [createTable, h, ht, Bind.bind, Except.bind, pure, Except.pure, ite_false,
    if_neg ht]

/-- C6 amended: `create_table` raises a `ValueError` (the SchemaError
class of this code) exactly when the table name is missing or empty; a
record type with zero declared columns is accepted. Given a truthy
table name, a type declaring at least one relation raises
`AttributeError` (the stale-loop-variable defect of C1) and a type with
no relations produces exactly one CREATE TABLE IF NOT EXISTS statement
assembling columns, primary-key clause and unique clauses. -/
theorem C6_amended_fails_only_on_table_name
    (rtNone rtEmpty rtFk rtPlain : RecordType) (t u : String)
    (h1 : rtNone.tableName = Option.none)
    (h2 : rtEmpty.tableName = some "")
    (h3 : rtFk.tableName = some t) (h3t : ¬ t = "")
    (h3fk : (tableForeignKeys (classDict rtFk)).isEmpty = false)
    (h4 : rtPlain.tableName = some u) (h4t : ¬ u = "")
    (h4fk : tableForeignKeys (classDict rtPlain) = []) :
    createTable rtNone = .error PyError.valueError ∧
    createTable rtEmpty = .error PyError.valueError ∧
    createTable rtFk = .error PyError.attributeError ∧
    createTable rtPlain =
      .ok ("CREATE TABLE IF NOT EXISTS " ++ u ++ " (" ++
        String.intercalate ", " (tableColumns (classDict rtPlain)) ++
        (if (tablePrimaryKeys (classDict rtPlain)).isEmpty then ""
         else ", PRIMARY KEY (" ++
           String.intercalate ", " (tablePrimaryKeys (classDict rtPlain)) ++ ")") ++
        String.join ((tableUniques (classDict rtPlain)).map
          (fun col => ", UNIQUE(" ++ col ++ ")")) ++ ")") := by
  refine ⟨?_, ?_, ?_, ?_⟩
  · simp only [createTable, h1, Bind.bind, Except.bind]
  · simp only [createTable, h2, Bind.bind, Except.bind, ite_true]
  · rw [createTable_named_eq rtFk t h3 h3t, staleField_classDict]
    cases hfk : tableForeignKeys (classDict rtFk) with
    | nil => rw [hfk] at h3fk; cases h3fk
    | cons a l =>
        rw [mapM_fkClause_error (a :: l) (by intro hc; cases hc)]
        rfl
  · rw [createTable_named_eq rtPlain u h4 h4t, staleField_classDict, h4fk]
    show Except.ok _ = Except.ok _
    rw [show String.join (([] : List String).reverse) = "" from rfl,
      String.append_empty]

/-- C6 amended, witnessed at concrete record types. -/
theorem C6_amended_fails_only_on_table_name_witness :
    createTable (RecordType.mk Option.none []) = .error PyError.valueError ∧
    createTable (RecordType.mk (some "") []) = .error PyError.valueError ∧
    createTable employeeProjectRT = .error PyError.attributeError ∧
    createTable departmentRT =
      .ok ("CREATE TABLE IF NOT EXISTS " ++ "departments" ++ " (" ++
        String.intercalate ", " (tableColumns (classDict departmentRT)) ++
        (if (tablePrimaryKeys (classDict departmentRT)).isEmpty then ""
         else ", PRIMARY KEY (" ++
           String.intercalate ", " (tablePrimaryKeys (classDict departmentRT)) ++ ")") ++
        String.join ((tableUniques (classDict departmentRT)).map
          (fun col => ", UNIQUE(" ++ col ++ ")")) ++ ")") :=
  C6_amended_fails_only_on_table_name (RecordType.mk Option.none [])
    (RecordType.mk (some "") []) employeeProjectRT departmentRT
    "employee_projects" "departments" rfl rfl rfl (by decide) rfl rfl (by decide) rfl

/-- C4: `save()` on a bound table issues an UPDATE setting exactly the
dirty columns with `WHERE pk = ?` when the primary-key attribute holds
a value, and otherwise an INSERT over all populated attributes followed
by storing the engine-assigned row id under the primary-key name; both
branches clear the dirty set. Stated with one instance per branch. -/
theorem C4_save_update_dirty_or_insert_all
    (rt : RecordType) (t : String) (lU lI : Int) (instU instI : Instance)
    (pkv : Value) (vals : List Value)
    (ht : rt.tableName = some t) (ht2 : ¬ t = "")
    (hpk : ¬ rt.getPrimaryKey = "")
    (hU : instU.pkValue rt = some pkv)
    (hvals : getAll instU.data instU.modified = .ok vals)
    (hI : instI.pkValue rt = Option.none) :
    save rt lU instU =
      .ok (.updateStmt t instU.modified rt.getPrimaryKey (vals ++ [pkv]),
        { instU with modified := [] }) ∧
    save rt lI instI =
      .ok (.insertStmt t (instI.data.map Prod.fst) (instI.data.map Prod.snd),
        { data := dictSet instI.data rt.getPrimaryKey (Value.int lI),
          modified := [], relations := instI.relations }) := by
  constructor
  · simp only [save, tableNameOrErr, ht, if_neg ht2, Bind.bind, Except.bind, pure,
      Except.pure, hU, hvals]
  · simp only [save, tableNameOrErr, ht, if_neg ht2, Bind.bind, Except.bind, pure,
      Except.pure, hI, if_neg hpk]

/-- C4, witnessed on Department instances for both branches. -/
theorem C4_save_update_dirty_or_insert_all_witness :
    save departmentRT 9 ⟨[("id", Value.int 3), ("name", Value.str "IT")], ["name"], []⟩ =
      .ok (.updateStmt "departments" ["name"] "id" [Value.str "IT", Value.int 3],
        ⟨[("id", Value.int 3), ("name", Value.str "IT")], [], []⟩) ∧
    save departmentRT 9 (initInstance [("name", Value.str "HR")]) =
      .ok (.insertStmt "departments" ["name"] [Value.str "HR"],
        ⟨[("name", Value.str "HR"), ("id", Value.int 9)], [], []⟩) := by
  have h := C4_save_update_dirty_or_insert_all departmentRT "departments" 9 9
    ⟨[("id", Value.int 3), ("name", Value.str "IT")], ["name"], []⟩
    (initInstance [("name", Value.str "HR")]) (Value.int 3) [Value.str "IT"]
    rfl (by decide) (by decide) (by decide) (by decide) (by decide)
  exact h

/-- C5: on a bound instance (primary-key attribute populated), calling
`save()` twice with no intervening writes leaves the second call in the
UPDATE branch with an empty SET list, parameter list `[pkv]` only, and
an unchanged instance: no column is written by the second statement. -/
theorem C5_second_save_empty_set_list
    (rt : RecordType) (t : String) (l₁ l₂ : Int) (inst : Instance)
    (pkv : Value) (vals : List Value)
    (ht : rt.tableName = some t) (ht2 : ¬ t = "")
    (hB : inst.pkValue rt = some pkv)
    (hvals : getAll inst.data inst.modified = .ok vals) :
    save rt l₁ inst =
      .ok (.updateStmt t inst.modified rt.getPrimaryKey (vals ++ [pkv]),
        { inst with modified := [] }) ∧
    save rt l₂ { inst with modified := [] } =
      .ok (.updateStmt t [] rt.getPrimaryKey [pkv],
        { inst with modified := [] }) ∧
    (SaveStmt.updateStmt t [] rt.getPrimaryKey [pkv]).sql =
      "UPDATE " ++ t ++ " SET " ++ " WHERE " ++ rt.getPrimaryKey ++ " = ?" := by
  have hB2 : Instance.pkValue rt { inst with modified := [] } = some pkv := hB
  refine ⟨?_, ?_, ?_⟩
  · simp only [save, tableNameOrErr, ht, if_neg ht2, Bind.bind, Except.bind, pure,
      Except.pure, hB, hvals]
  · simp only [save, tableNameOrErr, ht, if_neg ht2, Bind.bind, Except.bind, pure,
      Except.pure, hB2]
    rfl
  · simp only [SaveStmt.sql, List.map_nil]
    rw [show String.intercalate ", " ([] : List String) = "" from rfl,
      String.append_empty]

/-- C5, witnessed on a Department instance. -/
theorem C5_second_save_empty_set_list_witness :
    save departmentRT 9 ⟨[("id", Value.int 3), ("name", Value.str "IT")], ["name"], []⟩ =
      .ok (.updateStmt "departments" ["name"] "id" [Value.str "IT", Value.int 3],
        ⟨[("id", Value.int 3), ("name", Value.str "IT")], [], []⟩) ∧
    save departmentRT 9 ⟨[("id", Value.int 3), ("name", Value.str "IT")], [], []⟩ =
      .ok (.updateStmt "departments" [] "id" [Value.int 3],
        ⟨[("id", Value.int 3), ("name", Value.str "IT")], [], []⟩) ∧
    (SaveStmt.updateStmt "departments" [] "id" [Value.int 3]).sql =
      "UPDATE " ++ "departments" ++ " SET " ++ " WHERE " ++ "id" ++ " = ?" :=
  C5_second_save_empty_set_list departmentRT "departments" 9 9
    ⟨[("id", Value.int 3), ("name", Value.str "IT")], ["name"], []⟩
    (Value.int 3) [Value.str "IT"] rfl (by decide) (by decide) (by decide)

/-- C10: `delete()` on a bound instance returns the DELETE statement
with the instance state exactly as it was (values, dirty set and
primary key untouched), and a subsequent `save()` on that same state
takes the UPDATE branch against the deleted row's primary-key value. -/
theorem C10_delete_leaves_instance_unchanged
    (rt : RecordType) (t : String) (l : Int) (inst : Instance)
    (pkv : Value) (vals : List Value)
    (ht : rt.tableName = some t) (ht2 : ¬ t = "")
    (hB : inst.pkValue rt = some pkv)
    (hvals : getAll inst.data inst.modified = .ok vals) :
    deleteRec rt inst =
      .ok ("DELETE FROM " ++ t ++ " WHERE " ++ rt.getPrimaryKey ++ " = ?",
        [pkv], inst) ∧
    save rt l inst =
      .ok (.updateStmt t inst.modified rt.getPrimaryKey (vals ++ [pkv]),
        { inst with modified := [] }) := by
  constructor
  · simp only [deleteRec, tableNameOrErr, ht, if_neg ht2, Bind.bind, Except.bind,
      pure, Except.pure, hB]
  · simp only [save, tableNameOrErr, ht, if_neg ht2, Bind.bind, Except.bind, pure,
      Except.pure, hB, hvals]

/-- C10, witnessed on a Department instance. -/
theorem C10_delete_leaves_instance_unchanged_witness :
    deleteRec departmentRT ⟨[("id", Value.int 3), ("name", Value.str "IT")], ["name"], []⟩ =
      .ok ("DELETE FROM " ++ "departments" ++ " WHERE " ++ "id" ++ " = ?",
        [Value.int 3],
        ⟨[("id", Value.int 3), ("name", Value.str "IT")], ["name"], []⟩) ∧
    save departmentRT 9 ⟨[("id", Value.int 3), ("name", Value.str "IT")], ["name"], []⟩ =
      .ok (.updateStmt "departments" ["name"] "id" [Value.str "IT", Value.int 3],
        ⟨[("id", Value.int 3), ("name", Value.str "IT")], [], []⟩) :=
  C10_delete_leaves_instance_unchanged departmentRT "departments" 9
    ⟨[("id", Value.int 3), ("name", Value.str "IT")], ["name"], []⟩
    (Value.int 3) [Value.str "IT"] rfl (by decide) (by decide) (by decide)

/-- C7: `count()` renders `SELECT COUNT(*) FROM t` with only the
accumulated predicate fragments and binds exactly the first N
accumulated parameters, N being the number of predicate fragments; it
is untouched by limit, offset, order_by, group_by, projection and
joins configured on the same builder, and `having` can shift only the
bound parameters (the fragile slicing the spec flags), never the
rendered statement. -/
theorem C7_count_uses_predicates_only
    (b : QueryBuilder) (n m : Int) (cols : List String)
    (tbl onC ty g cond col dir : String) (ps : List Value) :
    count b =
      (if b._where.isEmpty then
        ("SELECT COUNT(*) FROM " ++ showOptTable b.table, ([] : List Value))
       else
        ("SELECT COUNT(*) FROM " ++ showOptTable b.table ++ " WHERE " ++
          String.intercalate " AND " b._where,
         b._params.take b._where.length)) ∧
    count (limit b n) = count b ∧
    count (offset b m) = count b ∧
    count (order_by b col dir) = count b ∧
    count (group_by b g) = count b ∧
    count (select b cols) = count b ∧
    count (join b tbl onC ty) = count b ∧
    (count (having b cond ps)).1 = (count b).1 := by
  refine ⟨rfl, rfl, rfl, rfl, rfl, rfl, rfl, ?_⟩
  cases hw : b._where.isEmpty <;> simp [count, having, hw]

/-! ## Configuration calls as data, for the clause-order claim -/

/-- One configuration-method call on a `QueryBuilder`. -/
inductive CallQB where
  | selectC (cols : List String)
  | whereCC (cond : String) (ps : List Value)
  | joinC (tbl onC ty : String)
  | leftJoinC (tbl onC : String)
  | rightJoinC (tbl onC : String)
  | limitC (n : Int)
  | offsetC (n : Int)
  | orderByC (col dir : String)
  | groupByC (c : String)
  | havingC (cond : String) (ps : List Value)
  deriving DecidableEq, Repr

/-- Apply one configuration call (each Python method mutates and
returns `self`; in the embedding it maps the state). -/
def applyCall (b : QueryBuilder) : CallQB → QueryBuilder
  | .selectC cols => select b cols
  | .whereCC cond ps => whereC b cond ps
  | .joinC tbl onC ty => join b tbl onC ty
  | .leftJoinC tbl onC => left_join b tbl onC
  | .rightJoinC tbl onC => right_join b tbl onC
  | .limitC n => limit b n
  | .offsetC n => offset b n
  | .orderByC col dir => order_by b col dir
  | .groupByC c => group_by b c
  | .havingC cond ps => having b cond ps

/-- A chain of fluent configuration calls in call order. -/
def applyCalls (b : QueryBuilder) (cs : List CallQB) : QueryBuilder :=
  cs.foldl applyCall b

/-- The clause contents of a builder: every rendering-relevant field
(everything except the bound parameter list). -/
def clauseState (b : QueryBuilder) :
    Option String × String × List String × List String × Option String ×
      Option String × Option String × Option Int × Option Int :=
  (b.table, b._select, b._joins, b._where, b._group_by, b._having,
    b._order_by, b._limit, b._offset)

/-- Modelled from the spec: the fixed rendering order
`SELECT ... FROM t [JOIN ...]* [WHERE ...] [GROUP BY ...] [HAVING ...]
[ORDER BY ...] [LIMIT ...] [OFFSET ...]`, written as one concatenation
of optional fragments, to be compared with `buildQuery`. -/
def renderFixedOrder (b : QueryBuilder) : String :=
  "SELECT " ++ b._select ++ " FROM " ++ showOptTable b.table ++
    (if b._joins.isEmpty then "" else " " ++ String.intercalate " " b._joins) ++
    (if b._where.isEmpty then ""
     else " WHERE " ++ String.intercalate " AND " b._where) ++
    (if truthyS b._group_by then " GROUP BY " ++ b._group_by.getD "" else "") ++
    (if truthyS b._having then " HAVING " ++ b._having.getD "" else "") ++
    (if truthyS b._order_by then " ORDER BY " ++ b._order_by.getD "" else "") ++
    (match b._limit with
     | some n => " LIMIT " ++ toString n
     | Option.none => "") ++
    (match b._offset with
     | some n => " OFFSET " ++ toString n
     | Option.none => "")

/-- The statement `_build_query` renders is the fixed-order
concatenation. -/
lemma buildQuery_fst_renderFixed (b : QueryBuilder) :
    (buildQuery b).1 = renderFixedOrder b := by
  cases hj : b._joins.isEmpty <;> cases hw : b._where.isEmpty <;>
    cases hg : truthyS b._group_by <;> cases hh : truthyS b._having <;>
    cases ho : truthyS b._order_by <;> cases hl : b._limit <;>
    cases hf : b._offset <;>
      simp only [buildQuery, renderFixedOrder, hj, hw, hg, hh, ho, hl, hf] <;>
      simp [String.append_assoc, String.append_empty]

/-- The rendered statement depends only on the clause contents, not on
the parameter list or on how the state was reached. -/
lemma buildQuery_fst_congr (b₁ b₂ : QueryBuilder)
    (h : clauseState b₁ = clauseState b₂) :
    (buildQuery b₁).1 = (buildQuery b₂).1 := by
  simp only [clauseState, Prod.mk.injEq] at h
  obtain ⟨h1, h2, h3, h4, h5, h6, h7, h8, h9⟩ := h
  simp only [buildQuery, h1, h2, h3, h4, h5, h6, h7, h8, h9]

/-- C8: the rendered statement always lists its clauses in the fixed
order SELECT, FROM, JOINs (in call order, as `_joins` accumulates
them), WHERE, GROUP BY, HAVING, ORDER BY, LIMIT, OFFSET; and any two
call sequences leading to the same clause contents — in particular the
same calls in a different order — render the same statement. -/
theorem C8_fixed_clause_order
    (b b₁ b₂ : QueryBuilder) (cs₁ cs₂ : List CallQB)
    (h : clauseState (applyCalls b₁ cs₁) = clauseState (applyCalls b₂ cs₂)) :
    (buildQuery b).1 = renderFixedOrder b ∧
    (buildQuery (applyCalls b₁ cs₁)).1 = (buildQuery (applyCalls b₂ cs₂)).1 :=
  ⟨buildQuery_fst_renderFixed b,
    buildQuery_fst_congr (applyCalls b₁ cs₁) (applyCalls b₂ cs₂) h⟩

/-- C8, witnessed: limit / where / order_by issued in two different
orders render the same statement. -/
theorem C8_fixed_clause_order_witness :
    (buildQuery (initQB departmentRT)).1 = renderFixedOrder (initQB departmentRT) ∧
    (buildQuery (applyCalls (initQB departmentRT)
        [CallQB.limitC 5, CallQB.whereCC "budget > ?" [Value.int 0],
          CallQB.orderByC "name" "ASC"])).1 =
      (buildQuery (applyCalls (initQB departmentRT)
        [CallQB.orderByC "name" "ASC", CallQB.whereCC "budget > ?" [Value.int 0],
          CallQB.limitC 5])).1 :=
  C8_fixed_clause_order (initQB departmentRT) (initQB departmentRT)
    (initQB departmentRT)
    [CallQB.limitC 5, CallQB.whereCC "budget > ?" [Value.int 0],
      CallQB.orderByC "name" "ASC"]
    [CallQB.orderByC "name" "ASC", CallQB.whereCC "budget > ?" [Value.int 0],
      CallQB.limitC 5]
    (by rfl)

end Fastorm
